import Mathlib

/-!
Verification of the double-difference (DD) relocation core of scrtdd
(HDD solver headers: solver.h, nllttt.h, hypodd.h).

The repository sources provide the data-model declarations (DDSystem,
Solver, Grid hierarchy, SolverOptions); the bodies of the solver driver
(matrix-vector product, observation dedup, residual reweighting, column
normalization, travel-time failure handling) are declared but their
implementations live outside the provided sources, so those operations
are modelled from the specification text and marked as such.

Numeric values are modelled with exact rationals (and with real numbers
where the specification speaks of L2 norms), abstracting IEEE floating
point.
-/

namespace HDD

/-! ## DDSystem container (from solver.h, struct DDSystem)

The C++ struct owns contiguous arrays sized at construction from
`(nObs, nEvts, nPhStas, nTTconstraints)`:
  W          = new double[numRowsG];
  G          = new double[nEvts * nPhStas][4];
  m          = new double[numColsG];
  d          = new double[numRowsG];
  L2NScaler  = new double[numColsG];
  evByObs[0] = new int[numRowsG];
  evByObs[1] = new int[numRowsG];
  phStaByObs = new unsigned[numRowsG];
with numColsG = nEvts * 4 and numRowsG = nObs + nTTconstraints.
-/

structure DDSystem where
  nObs : ℕ
  nEvts : ℕ
  nPhStas : ℕ
  nTTconstraints : ℕ
  W : Array ℚ
  G : Array (ℚ × ℚ × ℚ × ℚ)
  m : Array ℚ
  d : Array ℚ
  L2NScaler : Array ℚ
  evByObs0 : Array ℤ
  evByObs1 : Array ℤ
  phStaByObs : Array ℕ

def DDSystem.numColsG (s : DDSystem) : ℕ := s.nEvts * 4

def DDSystem.numRowsG (s : DDSystem) : ℕ := s.nObs + s.nTTconstraints

/-- Embedding of the DDSystem constructor: allocates every array with the
size the C++ initializer list and constructor body give it. -/
def DDSystem.make (nObs nEvts nPhStas nTTconstraints : ℕ) : DDSystem :=
  let numColsG := nEvts * 4
  let numRowsG := nObs + nTTconstraints
  { nObs := nObs
    nEvts := nEvts
    nPhStas := nPhStas
    nTTconstraints := nTTconstraints
    W := Array.mkArray numRowsG 0
    G := Array.mkArray (nEvts * nPhStas) (0, 0, 0, 0)
    m := Array.mkArray numColsG 0
    d := Array.mkArray numRowsG 0
    L2NScaler := Array.mkArray numColsG 0
    evByObs0 := Array.mkArray numRowsG 0
    evByObs1 := Array.mkArray numRowsG 0
    phStaByObs := Array.mkArray numRowsG 0 }

/-! ## Matrix-vector product of the DD system

Modelled from the spec: the matrix-vector product `y = W·G·x` of section
4.C (its implementation is not among the provided sources; only the
DDSystem storage it operates on is).  Rows below `nObs` are observation
rows; rows from `nObs` on are travel-time constraint rows, one per
event.  `G[e, phSta]` is a 4-vector `(dx, dy, dz, 1)` and an event index
of `-1` drops the corresponding term. -/

structure DDSys where
  nObs : ℕ
  nEvts : ℕ
  W : ℕ → ℚ
  G : ℕ → ℕ → Fin 4 → ℚ
  evByObs : Fin 2 → ℕ → ℤ
  phStaByObs : ℕ → ℕ

/-- Modelled from the spec: a packed G entry `(dx, dy, dz, 1)` — the
fourth component (the origin-time partial) is the constant 1. -/
def gvec (dx dy dz : ℚ) : Fin 4 → ℚ
  | 0 => dx
  | 1 => dy
  | 2 => dz
  | 3 => 1

/-- Modelled from the spec: the contribution of one event side of an
observation row, `Σ_k G[e,phSta][k] · x[e·4+k]`, dropped when the event
index is `-1` (a fixed neighbour / failed event). -/
def evTerm (sys : DDSys) (x : ℕ → ℚ) (e : ℤ) (s : ℕ) : ℚ :=
  if e = -1 then 0
  else ∑ k : Fin 4, sys.G e.toNat s k * x (e.toNat * 4 + (k : ℕ))

/-- Modelled from the spec: row `r` of the weighted product `y = W·G·x`
of section 4.C. -/
def mulG (sys : DDSys) (x : ℕ → ℚ) (r : ℕ) : ℚ :=
  if r < sys.nObs then
    sys.W r * (evTerm sys x (sys.evByObs 0 r) (sys.phStaByObs r)
             - evTerm sys x (sys.evByObs 1 r) (sys.phStaByObs r))
  else
    sys.W r * x ((r - sys.nObs) * 4 + 3)

/-- Concrete DD system used to instantiate the product theorems. -/
def sysC1 : DDSys :=
  { nObs := 1
    nEvts := 2
    W := fun _ => 2
    G := fun _ _ => gvec 5 7 11
    evByObs := fun i _ => if i = 0 then 0 else -1
    phStaByObs := fun _ => 0 }

/-- Concrete input vector used to instantiate the product theorems. -/
def xC1 : ℕ → ℚ := fun i => (i : ℚ) + 1

/-! ## Observation record (from solver.h, Solver::Observation) -/

structure Observation where
  ev1Idx : ℕ
  ev2Idx : ℕ
  phStaIdx : ℕ
  observedDiffTime : ℚ
  aPrioriWeight : ℚ
  isXcorr : Bool

/-- The six stored fields of an observation record, as a tuple. -/
def obsFields (o : Observation) : ℕ × ℕ × ℕ × ℚ × ℚ × Bool :=
  (o.ev1Idx, o.ev2Idx, o.phStaIdx, o.observedDiffTime, o.aPrioriWeight,
   o.isXcorr)

/-- Rebuild an observation record from its six fields. -/
def obsOfFields (t : ℕ × ℕ × ℕ × ℚ × ℚ × Bool) : Observation :=
  ⟨t.1, t.2.1, t.2.2.1, t.2.2.2.1, t.2.2.2.2.1, t.2.2.2.2.2⟩

/-! ## Observation store with canonical-key dedup

Modelled from the spec: `addObservation` (section 4.D; the body behind
the declaration in solver.h is not among the provided sources) keyed by
the canonical ordered key `(min(e1,e2), max(e1,e2), stationId, phase,
isXcorr)`; duplicate adds are rejected and leave the store unchanged. -/

abbrev ObsKey := ℕ × ℕ × String × Char × Bool

/-- Modelled from the spec: the canonical ordered dedup key. -/
def canonKey (evId1 evId2 : ℕ) (staId : String) (phase : Char)
    (isXcorr : Bool) : ObsKey :=
  (min evId1 evId2, max evId1 evId2, staId, phase, isXcorr)

/-- One stored entry of the observation store: the arguments of the
accepted addObservation call. -/
structure ObsEntry where
  evId1 : ℕ
  evId2 : ℕ
  staId : String
  phase : Char
  diffTime : ℚ
  aPrioriWeight : ℚ
  isXcorr : Bool

/-- Modelled from the spec: addObservation returns the updated store and
whether the observation was accepted; a key already present rejects the
add and leaves the store unchanged. -/
def addObservation (store : List (ObsKey × ObsEntry)) (evId1 evId2 : ℕ)
    (staId : String) (phase : Char) (diffTime aPrioriWeight : ℚ)
    (isXcorr : Bool) : List (ObsKey × ObsEntry) × Bool :=
  let key := canonKey evId1 evId2 staId phase isXcorr
  if key ∈ store.map Prod.fst then (store, false)
  else (store ++ [(key, ⟨evId1, evId2, staId, phase, diffTime,
                         aPrioriWeight, isXcorr⟩)], true)

/-- Concrete store holding one observation, used to instantiate the
dedup theorem. -/
def storeC4 : List (ObsKey × ObsEntry) :=
  (addObservation [] 1 2 "NET.STA.LOC" 'P' (3 / 2) 1 false).1

/-! ## Residual reweighter

Modelled from the spec: `computeResidualWeights` (section 4.G; only its
declaration is among the provided sources).  Median of an even-length
list is the mean of the two middle elements of the sorted list. -/

/-- Modelled from the spec: median of a list of rationals. -/
def median (l : List ℚ) : ℚ :=
  let sorted := l.insertionSort (fun a b => a ≤ b)
  if l.length % 2 = 1 then sorted.getD (l.length / 2) 0
  else (sorted.getD (l.length / 2 - 1) 0 + sorted.getD (l.length / 2) 0) / 2

/-- Modelled from the spec: Tukey biweight weights from residuals; the
cutoff is `alpha · MAD · 4.685` with `MAD = 1.4826 · median(|r_i −
median(r)|)`; `alpha = 0` disables reweighting. -/
def computeResidualWeights (residuals : List ℚ) (alpha : ℚ) : List ℚ :=
  if alpha = 0 then residuals.map fun _ => 1
  else
    let med := median residuals
    let mad := (14826 / 10000 : ℚ) * median (residuals.map fun r => |r - med|)
    let cutoff := alpha * mad * (4685 / 1000 : ℚ)
    residuals.map fun r =>
      if |r| < cutoff then (1 - (r / cutoff) ^ 2) ^ 2 else 0

/-- The biweight cutoff `c = alpha · MAD · 4.685` written exactly as the
specification states it. -/
def tukeyCutoff (residuals : List ℚ) (alpha : ℚ) : ℚ :=
  alpha * ((14826 / 10000 : ℚ)
    * median (residuals.map fun r => |r - median residuals|))
    * (4685 / 1000 : ℚ)

/-! ## Column normalization

Modelled from the spec: section 4.C/4.F step 5 (the normalization code
behind Solver::solve is not among the provided sources).  Real-valued,
since the L2 norm involves a square root. -/

/-- L2 norm of a column vector. -/
noncomputable def l2norm {n : ℕ} (v : Fin n → ℝ) : ℝ :=
  Real.sqrt (∑ i, v i ^ 2)

/-- Modelled from the spec: the per-column scaler, the column L2 norm or
1 where that norm is 0. -/
noncomputable def colScaler {n : ℕ} (v : Fin n → ℝ) : ℝ :=
  if l2norm v = 0 then 1 else l2norm v

/-- Column `c` of a matrix. -/
def colOf {nr nc : ℕ} (A : Fin nr → Fin nc → ℝ) (c : Fin nc) :
    Fin nr → ℝ :=
  fun r => A r c

/-- Modelled from the spec: the effective matrix `G · diag(1/L2NScaler)`. -/
noncomputable def normalizeCols {nr nc : ℕ} (A : Fin nr → Fin nc → ℝ) :
    Fin nr → Fin nc → ℝ :=
  fun r c => A r c / colScaler (colOf A c)

/-- Dense matrix-vector product used to state the normalized system. -/
def matVec {nr nc : ℕ} (A : Fin nr → Fin nc → ℝ) (x : Fin nc → ℝ) :
    Fin nr → ℝ :=
  fun r => ∑ c, A r c * x c

/-- Modelled from the spec: recover `m = m' / L2NScaler` from the
normalized solution. -/
noncomputable def denormalize {nr nc : ℕ} (A : Fin nr → Fin nc → ℝ)
    (mp : Fin nc → ℝ) : Fin nc → ℝ :=
  fun c => mp c / colScaler (colOf A c)

/-- Concrete 1x1 matrix used to instantiate the normalization theorem. -/
def matC6 : Fin 1 → Fin 1 → ℝ := fun _ _ => 1

/-- Concrete vector used to instantiate the normalization theorem. -/
def vecC6 : Fin 1 → ℝ := fun _ => 1

/-! ## Travel-time adapter and failure handling

Modelled from the spec: section 4.H (NllTravelTimeTable::compute is only
declared in nllttt.h) and the driver reaction of section 4.F: an event
whose partials cannot be computed has its index set to `-1` in all rows
referencing it. -/

structure TTRequest where
  evLat : ℚ
  evLon : ℚ
  evDepth : ℚ
  staId : String
  phaseType : String

structure TTResult where
  travelTime : ℚ
  takeOffAngleAzim : ℚ
  takeOffAngleDip : ℚ
  velocityAtSrc : ℚ

/-- Modelled from the spec: the adapter returns the quadruple when the
request is inside the model, a recoverable failure otherwise. -/
def ttCompute (covered : TTRequest → Bool) (table : TTRequest → TTResult)
    (req : TTRequest) : Except Unit TTResult :=
  if covered req then Except.ok (table req) else Except.error ()

/-- Modelled from the spec: fix event `e` by setting its index to `-1`
in every row referencing it. -/
def fixEvent (sys : DDSys) (e : ℕ) : DDSys :=
  { sys with
    evByObs := fun side r =>
      if sys.evByObs side r = (e : ℤ) then -1 else sys.evByObs side r }

/-- Modelled from the spec: the driver step around one adapter call — a
failure fixes the event instead of aborting. -/
def handleEventPartials (covered : TTRequest → Bool)
    (table : TTRequest → TTResult) (sys : DDSys) (e : ℕ)
    (req : TTRequest) : DDSys :=
  match ttCompute covered table req with
  | Except.ok _ => sys
  | Except.error _ => fixEvent sys e

/-- Concrete adapter coverage used to instantiate the failure theorem:
nothing is covered, every request fails. -/
def coveredC7 : TTRequest → Bool := fun _ => false

/-- Concrete adapter table used to instantiate the failure theorem. -/
def tableC7 : TTRequest → TTResult := fun _ => ⟨0, 0, 0, 0⟩

/-- Concrete request used to instantiate the failure theorem. -/
def reqC7 : TTRequest := ⟨0, 0, 0, "NET.STA.LOC", "P"⟩

/-! ## Solver state and reset (from solver.h, class Solver)

Member declarations embedded field by field; std containers are
default-constructed empty by Solver(std::string type), and reset() is
literally *this = Solver(_type).  The three POD doubles of _centroid
carry an indeterminate value after construction, modelled by an explicit
parameter. -/

structure EventParams where
  lat : ℚ
  lon : ℚ
  depth : ℚ
  x : ℚ
  y : ℚ
  z : ℚ

structure StationParams where
  lat : ℚ
  lon : ℚ
  elevation : ℚ
  x : ℚ
  y : ℚ
  z : ℚ

structure ObservationParams where
  computeEvChanges : Bool
  travelTime : ℚ
  travelTimeResidual : ℚ
  takeOffAngleAzim : ℚ
  takeOffAngleDip : ℚ
  velocityAtSrc : ℚ
  dx : ℚ
  dy : ℚ
  dz : ℚ

structure ParamStats where
  startingTTObs : ℕ
  startingCCObs : ℕ
  finalTotalObs : ℕ
  totalAPrioriWeight : ℚ
  totalFinalWeight : ℚ
  totalResiduals : ℚ
  peerEvIds : List ℕ

structure Centroid where
  lat : ℚ
  lon : ℚ
  depth : ℚ

structure EventDeltas where
  deltaLat : ℚ
  deltaLon : ℚ
  deltaDepth : ℚ
  deltaTT : ℚ

structure SolverState where
  eventIdConverter : List (ℕ × ℕ)
  phStaIdConverter : List (String × ℕ)
  obsIdConverter : List (String × ℕ)
  observations : List (ℕ × Observation)
  eventParams : List (ℕ × EventParams)
  stationParams : List (ℕ × StationParams)
  obsParams : List ((ℕ × ℕ) × ObservationParams)
  paramStats : List ((ℕ × ℕ) × ParamStats)
  centroid : Centroid
  eventDeltas : List (ℕ × EventDeltas)
  residuals : List ℚ
  dd : Option DDSys
  solverType : String

/-- Embedding of Solver(std::string type): every container member is
default-constructed empty, the smart pointer is null, _type is set;
the uninitialized _centroid PODs are an explicit parameter. -/
def mkSolver (solverType : String) (uninit : Centroid) : SolverState :=
  ⟨[], [], [], [], [], [], [], [], uninit, [], [], none, solverType⟩

/-- Embedding of Solver::reset: *this = Solver(_type). -/
def solverReset (s : SolverState) (uninit : Centroid) : SolverState :=
  mkSolver s.solverType uninit

/-! ## Solve default arguments (from solver.h) and SolverOptions
defaults (from hypodd.h) -/

structure SolveArgs where
  numIterations : ℕ := 0
  useTTconstraint : Bool := false
  dampingFactor : ℚ := 0
  residualDownWeight : ℚ := 0
  normalizeG : Bool := true

/-- The default arguments of Solver::solve as declared in solver.h. -/
def solveDefaults : SolveArgs := {}

structure SolverOptions where
  solverKind : String := "LSMR"
  L2normalization : Bool := true
  solverIterations : ℕ := 0
  algoIterations : ℕ := 20
  ttConstraint : Bool := true
  dampingFactorStart : ℚ := 0
  dampingFactorEnd : ℚ := 0
  downWeightingByResidualStart : ℚ := 0
  downWeightingByResidualEnd : ℚ := 0
  usePickUncertainty : Bool := false
  absTTDiffObsWeight : ℚ := 1
  xcorrObsWeight : ℚ := 1

/-- The member defaults of struct SolverOptions as declared in
hypodd.h. -/
def solverOptionsDefaults : SolverOptions := {}

/-! ## Grid dimensionality (from nllttt.h) -/

structure GridInfo where
  numx : ℕ
  numy : ℕ
  numz : ℕ

/-- Embedding of Grid::is3D: info.numx > 1. -/
def gridIs3D (info : GridInfo) : Bool := decide (1 < info.numx)

/-- Embedding of VelGrid::is3D, the override: info.numx > 2. -/
def velGridIs3D (info : GridInfo) : Bool := decide (2 < info.numx)

/-- TimeGrid declares no is3D override, so it inherits Grid::is3D. -/
def timeGridIs3D : GridInfo → Bool := gridIs3D

/-- AngleGrid declares no is3D override, so it inherits Grid::is3D. -/
def angleGridIs3D : GridInfo → Bool := gridIs3D

end HDD

namespace HDD

/-! ## Theorems -/

/-- Claim C2: the constructed DDSystem has numRowsG = nObs +
nTTconstraints rows (W, d, evByObs[0], evByObs[1], phStaByObs all have
this length), numColsG = 4·nEvts columns (m and L2NScaler have this
length), and G is stored as exactly nEvts·nPhStas 4-vectors. -/
theorem ddsystem_sizes (nObs nEvts nPhStas nTTconstraints : ℕ) :
    (DDSystem.make nObs nEvts nPhStas nTTconstraints).numRowsG
        = nObs + nTTconstraints
    ∧ (DDSystem.make nObs nEvts nPhStas nTTconstraints).W.size
        = nObs + nTTconstraints
    ∧ (DDSystem.make nObs nEvts nPhStas nTTconstraints).d.size
        = nObs + nTTconstraints
    ∧ (DDSystem.make nObs nEvts nPhStas nTTconstraints).evByObs0.size
        = nObs + nTTconstraints
    ∧ (DDSystem.make nObs nEvts nPhStas nTTconstraints).evByObs1.size
        = nObs + nTTconstraints
    ∧ (DDSystem.make nObs nEvts nPhStas nTTconstraints).phStaByObs.size
        = nObs + nTTconstraints
    ∧ (DDSystem.make nObs nEvts nPhStas nTTconstraints).numColsG
        = 4 * nEvts
    ∧ (DDSystem.make nObs nEvts nPhStas nTTconstraints).m.size
        = 4 * nEvts
    ∧ (DDSystem.make nObs nEvts nPhStas nTTconstraints).L2NScaler.size
        = 4 * nEvts
    ∧ (DDSystem.make nObs nEvts nPhStas nTTconstraints).G.size
        = nEvts * nPhStas := by
  refine ⟨rfl, ?_, ?_, ?_, ?_, ?_, ?_, ?_, ?_, ?_⟩ <;>
    simp [DDSystem.make, DDSystem.numRowsG, DDSystem.numColsG,
      Nat.mul_comm]

/-- Claim C1: for every observation row `r` with event indices
`(e1, e2)` and phase-station `phSta`, the product is
`y[r] = W[r] · (Σ_k G[e1,phSta][k]·x[e1·4+k] − Σ_k G[e2,phSta][k]·x[e2·4+k])`,
where a packed G 4-vector `(dx,dy,dz,1)` makes the `k = 3` coefficient
`+1/−1`; a term whose event index is `-1` is dropped; and every
constraint row of event `e` gives `y[r] = W[r] · x[e·4+3]`. -/
theorem ddsys_matvec_spec (sys : DDSys) (x : ℕ → ℚ) (r : ℕ) :
    (r < sys.nObs →
      mulG sys x r
        = sys.W r * (evTerm sys x (sys.evByObs 0 r) (sys.phStaByObs r)
                   - evTerm sys x (sys.evByObs 1 r) (sys.phStaByObs r)))
    ∧ (∀ (e : ℤ) (s : ℕ) (dx dy dz : ℚ), 0 ≤ e →
        sys.G e.toNat s = gvec dx dy dz →
        evTerm sys x e s
          = dx * x (e.toNat * 4) + dy * x (e.toNat * 4 + 1)
            + dz * x (e.toNat * 4 + 2) + 1 * x (e.toNat * 4 + 3))
    ∧ (∀ s : ℕ, evTerm sys x (-1) s = 0)
    ∧ (sys.nObs ≤ r →
        mulG sys x r = sys.W r * x ((r - sys.nObs) * 4 + 3)) := by
  refine ⟨fun h => ?_, fun e s dx dy dz he hG => ?_, fun s => ?_,
    fun h => ?_⟩
  · simp [mulG, h]
  · have hne : e ≠ -1 := by omega
    simp only [evTerm, if_neg hne, hG, Fin.sum_univ_four]
    norm_num [gvec]
    rfl
  · simp [evTerm]
  · have hlt : ¬ r < sys.nObs := by omega
    simp [mulG, hlt]

/-- Witness for C1: the theorem applied at a concrete system, vector and
rows, with each hypothesis discharged at the instance. -/
theorem ddsys_matvec_spec_witness :
    mulG sysC1 xC1 0
      = sysC1.W 0 * (evTerm sysC1 xC1 (sysC1.evByObs 0 0) (sysC1.phStaByObs 0)
                   - evTerm sysC1 xC1 (sysC1.evByObs 1 0) (sysC1.phStaByObs 0))
    ∧ evTerm sysC1 xC1 0 0
        = 5 * xC1 0 + 7 * xC1 1 + 11 * xC1 2 + 1 * xC1 3
    ∧ evTerm sysC1 xC1 (-1) 0 = 0
    ∧ mulG sysC1 xC1 3 = sysC1.W 3 * xC1 ((3 - sysC1.nObs) * 4 + 3) :=
  ⟨(ddsys_matvec_spec sysC1 xC1 0).1 (by decide),
   (ddsys_matvec_spec sysC1 xC1 0).2.1 0 0 5 7 11 (by decide) rfl,
   (ddsys_matvec_spec sysC1 xC1 0).2.2.1 0,
   (ddsys_matvec_spec sysC1 xC1 3).2.2.2 (by decide)⟩

/-- Claim C3: an observation record holds exactly the six fields
(ev1_idx, ev2_idx, phSta_idx, dt, a_priori_weight, is_xcorr) — it is in
bijection with the 6-tuple of those fields — and `-1` is a representable
and meaningful value for the per-row event indices: a DD system can
store it, and the product drops the corresponding term. -/
theorem observation_record_spec :
    Function.Bijective obsFields
    ∧ (∃ sys : DDSys, sys.evByObs 1 0 = -1)
    ∧ ∀ (sys : DDSys) (x : ℕ → ℚ) (s : ℕ), evTerm sys x (-1) s = 0 := by
  refine ⟨Function.bijective_iff_has_inverse.mpr
      ⟨obsOfFields, fun o => by cases o; rfl,
       fun t => by obtain ⟨a, b, c, d, e, f⟩ := t; rfl⟩,
    ⟨sysC1, by decide⟩, fun sys x s => by simp [evTerm]⟩

/-- Claim C4: addObservation deduplicates by the canonical ordered key
(min(e1,e2), max(e1,e2), stationId, phase, isXcorr): the key is
symmetric in the two event ids, and an add whose key is already present
is rejected and leaves the observation store unchanged. -/
theorem addObservation_dedup (store : List (ObsKey × ObsEntry))
    (evId1 evId2 : ℕ) (staId : String) (phase : Char)
    (diffTime aPrioriWeight : ℚ) (isXcorr : Bool) :
    canonKey evId1 evId2 staId phase isXcorr
        = canonKey evId2 evId1 staId phase isXcorr
    ∧ (canonKey evId1 evId2 staId phase isXcorr ∈ store.map Prod.fst →
        addObservation store evId1 evId2 staId phase diffTime
            aPrioriWeight isXcorr
          = (store, false)) := by
  constructor
  · simp [canonKey, Nat.min_comm, Nat.max_comm]
  · intro h
    simp [addObservation, h]

/-- Witness for C4: a store holding the observation keyed from event
pair (1,2); re-adding it with the events in the opposite order (2,1) is
rejected and leaves the store unchanged. -/
theorem addObservation_dedup_witness :
    addObservation storeC4 2 1 "NET.STA.LOC" 'P' 5 1 false
      = (storeC4, false) :=
  (addObservation_dedup storeC4 2 1 "NET.STA.LOC" 'P' 5 1 false).2
    (by decide)

/-- Claim C5: the residual weights are Tukey biweights with cutoff
`c = alpha · MAD · 4.685`, `MAD = 1.4826 · median(|r_i − median(r)|)`:
`w_i = (1 − (r_i/c)²)²` when `|r_i| < c` and `0` otherwise; `alpha = 0`
returns weight 1 for every residual. -/
theorem computeResidualWeights_spec (rs : List ℚ) (alpha : ℚ) (i : ℕ)
    (h : i < rs.length) :
    (computeResidualWeights rs alpha).length = rs.length
    ∧ (alpha = 0 → (computeResidualWeights rs alpha).getD i 0 = 1)
    ∧ (alpha ≠ 0 →
        (computeResidualWeights rs alpha).getD i 0
          = if |rs.getD i 0| < tukeyCutoff rs alpha
            then (1 - (rs.getD i 0 / tukeyCutoff rs alpha) ^ 2) ^ 2
            else 0) := by
  have hmap : ∀ f : ℚ → ℚ, (rs.map f).getD i 0 = f (rs.getD i 0) := by
    intro f
    rw [List.getD_eq_getElem rs 0 h,
      List.getD_eq_getElem _ 0 (by simpa using h)]
    simp
  refine ⟨?_, fun h0 => ?_, fun h0 => ?_⟩
  · by_cases h0 : alpha = 0 <;> simp [computeResidualWeights, h0]
  · simp only [computeResidualWeights, if_pos h0]
    rw [hmap]
  · simp only [computeResidualWeights, if_neg h0]
    rw [hmap, tukeyCutoff]

/-- Witness for C5: the theorem applied at residuals [1, 2, 100] with
alpha = 1 and index 2, each hypothesis discharged at the instance. -/
theorem computeResidualWeights_spec_witness :
    2 < ([1, 2, 100] : List ℚ).length
    ∧ (computeResidualWeights [1, 2, 100] 1).length
        = ([1, 2, 100] : List ℚ).length
    ∧ (computeResidualWeights [1, 2, 100] 1).getD 2 0
        = if |([1, 2, 100] : List ℚ).getD 2 0| < tukeyCutoff [1, 2, 100] 1
          then (1 - (([1, 2, 100] : List ℚ).getD 2 0
                      / tukeyCutoff [1, 2, 100] 1) ^ 2) ^ 2
          else 0 :=
  ⟨by decide,
   (computeResidualWeights_spec [1, 2, 100] 1 2 (by decide)).1,
   (computeResidualWeights_spec [1, 2, 100] 1 2 (by decide)).2.2
     (by decide)⟩

/-- Scaling every component of a vector by a nonnegative constant scales
its L2 norm by that constant. -/
theorem l2norm_div {n : ℕ} (v : Fin n → ℝ) (s : ℝ) (hs : 0 ≤ s) :
    l2norm (fun i => v i / s) = l2norm v / s := by
  unfold l2norm
  have hsq : ∑ i, (v i / s) ^ 2 = (∑ i, v i ^ 2) / s ^ 2 := by
    simp [div_pow, Finset.sum_div]
  rw [hsq, Real.sqrt_div (Finset.sum_nonneg fun _ _ => sq_nonneg _),
    Real.sqrt_sq hs]

/-- Claim C6: the column scaler is the column L2 norm (1 where that norm
is 0); after normalization every column of the effective matrix has L2
norm 0 or 1; and the de-scaled solution `m = m' / L2NScaler` solves the
original system whenever `m'` solves the normalized one. -/
theorem column_normalization_spec {nr nc : ℕ} (A : Fin nr → Fin nc → ℝ)
    (c : Fin nc) :
    (l2norm (colOf A c) ≠ 0 → colScaler (colOf A c) = l2norm (colOf A c))
    ∧ (l2norm (colOf A c) = 0 → colScaler (colOf A c) = 1)
    ∧ l2norm (colOf (normalizeCols A) c) ∈ ({0, 1} : Set ℝ)
    ∧ ∀ (mp : Fin nc → ℝ) (d : Fin nr → ℝ),
        matVec (normalizeCols A) mp = d →
        matVec A (denormalize A mp) = d := by
  have hcol : colOf (normalizeCols A) c
      = fun r => colOf A c r / colScaler (colOf A c) := rfl
  refine ⟨fun h0 => by simp [colScaler, h0], fun h0 => by simp [colScaler, h0],
    ?_, fun mp d hmd => ?_⟩
  · by_cases h0 : l2norm (colOf A c) = 0
    · have hone : colScaler (colOf A c) = 1 := by simp [colScaler, h0]
      rw [hcol, hone]
      simp only [div_one]
      simp [h0]
    · have hsc : colScaler (colOf A c) = l2norm (colOf A c) := by
        simp [colScaler, h0]
      have hnn : (0 : ℝ) ≤ l2norm (colOf A c) := Real.sqrt_nonneg _
      rw [hcol, hsc, l2norm_div _ _ hnn, div_self h0]
      simp
  · have hswap : matVec A (denormalize A mp) = matVec (normalizeCols A) mp := by
      funext r
      unfold matVec denormalize normalizeCols
      exact Finset.sum_congr rfl fun j _ => by ring
    rw [hswap, hmd]

/-- Witness for C6: the 1x1 all-ones system, where the column norm is 1,
the scaler equals it, and the de-scaled solution solves the system. -/
theorem column_normalization_spec_witness :
    colScaler (colOf matC6 0) = l2norm (colOf matC6 0)
    ∧ matVec matC6 (denormalize matC6 vecC6) = vecC6 := by
  have h1 : l2norm (colOf matC6 0) = 1 := by
    simp [l2norm, colOf, matC6]
  have hyp : matVec (normalizeCols matC6) vecC6 = vecC6 := by
    funext r
    simp [matVec, normalizeCols, colOf, matC6, vecC6, colScaler, l2norm]
  exact ⟨(column_normalization_spec matC6 0).1 (by rw [h1]; norm_num),
    (column_normalization_spec matC6 0).2.2.2 vecC6 vecC6 hyp⟩

/-- Claim C7: the travel-time adapter either returns the quadruple
(travelTime, takeoffAzimuth, takeoffDip, srcVelocity) or signals a
recoverable failure; on failure the driver sets the event index to `-1`
in every row referencing that event instead of aborting, so no row
references it afterwards. -/
theorem ttt_failure_spec (covered : TTRequest → Bool)
    (table : TTRequest → TTResult) (req : TTRequest) (sys : DDSys)
    (e : ℕ) :
    ((∃ res : TTResult, ttCompute covered table req = Except.ok res)
      ∨ ttCompute covered table req = Except.error ())
    ∧ (ttCompute covered table req = Except.error () →
        ∀ (side : Fin 2) (r : ℕ),
          (handleEventPartials covered table sys e req).evByObs side r
            = (if sys.evByObs side r = (e : ℤ) then -1
               else sys.evByObs side r)
          ∧ (handleEventPartials covered table sys e req).evByObs side r
              ≠ (e : ℤ)) := by
  constructor
  · by_cases hc : covered req
    · exact Or.inl ⟨table req, by simp [ttCompute, hc]⟩
    · exact Or.inr (by simp [ttCompute, hc])
  · intro herr side r
    have hfix : handleEventPartials covered table sys e req
        = fixEvent sys e := by
      unfold handleEventPartials
      rw [herr]
    rw [hfix]
    by_cases hcond : sys.evByObs side r = (e : ℤ)
    · refine ⟨by simp [fixEvent, hcond], ?_⟩
      simp only [fixEvent, if_pos hcond]
      omega
    · refine ⟨by simp [fixEvent, hcond], ?_⟩
      simp [fixEvent, hcond]

/-- Witness for C7: an adapter covering nothing fails on the concrete
request; the driver then clears the one row referencing event 0. -/
theorem ttt_failure_spec_witness :
    (handleEventPartials coveredC7 tableC7 sysC1 0 reqC7).evByObs 0 0
        = (if sysC1.evByObs 0 0 = ((0 : ℕ) : ℤ) then -1
           else sysC1.evByObs 0 0)
    ∧ (handleEventPartials coveredC7 tableC7 sysC1 0 reqC7).evByObs 0 0
        ≠ ((0 : ℕ) : ℤ) :=
  (ttt_failure_spec coveredC7 tableC7 reqC7 sysC1 0).2 rfl 0 0

/-- Claim C8: reset() makes the solver equal to a freshly constructed
Solver of the same type: all stored observations, observation
parameters, parameter statistics, event deltas, residuals, id
converters, and the DDSystem pointer are cleared; only the solver type
string is preserved. -/
theorem solver_reset_spec (s : SolverState) (u : Centroid) :
    solverReset s u = mkSolver s.solverType u
    ∧ (solverReset s u).observations = []
    ∧ (solverReset s u).obsParams = []
    ∧ (solverReset s u).paramStats = []
    ∧ (solverReset s u).eventDeltas = []
    ∧ (solverReset s u).residuals = []
    ∧ (solverReset s u).eventIdConverter = []
    ∧ (solverReset s u).phStaIdConverter = []
    ∧ (solverReset s u).obsIdConverter = []
    ∧ (solverReset s u).eventParams = []
    ∧ (solverReset s u).stationParams = []
    ∧ (solverReset s u).dd = none
    ∧ (solverReset s u).solverType = s.solverType :=
  ⟨rfl, rfl, rfl, rfl, rfl, rfl, rfl, rfl, rfl, rfl, rfl, rfl, rfl⟩

/-- Claim C9: Solver::solve defaults are numIterations = 0,
useTTconstraint = false, dampingFactor = 0, residualDownWeight = 0,
normalizeG = true; the driver-level SolverOptions defaults instead have
ttConstraint = true and algoIterations = 20, so the two defaults for the
travel-time constraint disagree. -/
theorem solve_defaults_spec :
    solveDefaults.numIterations = 0
    ∧ solveDefaults.useTTconstraint = false
    ∧ solveDefaults.dampingFactor = 0
    ∧ solveDefaults.residualDownWeight = 0
    ∧ solveDefaults.normalizeG = true
    ∧ solverOptionsDefaults.ttConstraint = true
    ∧ solverOptionsDefaults.algoIterations = 20
    ∧ solveDefaults.useTTconstraint ≠ solverOptionsDefaults.ttConstraint :=
  ⟨rfl, rfl, rfl, rfl, rfl, rfl, rfl, by decide⟩

/-- Claim C10: Grid::is3D is numx > 1 while the VelGrid override is
numx > 2; a grid whose x-dimension is exactly 2 is 3-D as a time or
angle grid but 2-D as a velocity grid. -/
theorem grid_is3D_spec (info : GridInfo) :
    (gridIs3D info = true ↔ 1 < info.numx)
    ∧ (velGridIs3D info = true ↔ 2 < info.numx)
    ∧ (info.numx = 2 →
        velGridIs3D info = false
        ∧ gridIs3D info = true
        ∧ timeGridIs3D info = true
        ∧ angleGridIs3D info = true) := by
  refine ⟨by simp [gridIs3D], by simp [velGridIs3D], fun h => ?_⟩
  simp [velGridIs3D, gridIs3D, timeGridIs3D, angleGridIs3D, h]

/-- Witness for C10: the grid with numx = 2 — 2-D as a velocity grid,
3-D as a plain, time or angle grid. -/
theorem grid_is3D_spec_witness :
    velGridIs3D ⟨2, 1, 1⟩ = false
    ∧ gridIs3D ⟨2, 1, 1⟩ = true
    ∧ timeGridIs3D ⟨2, 1, 1⟩ = true
    ∧ angleGridIs3D ⟨2, 1, 1⟩ = true :=
  (grid_is3D_spec ⟨2, 1, 1⟩).2.2 rfl

end HDD
